import Mathlib

/-!
Shallow embedding of the media-relay session coordinator of
`src/server/src/server.ts` (together with the `User` record of
`src/server/src/types/user.ts`), and proofs about it.

Modelling conventions:
* JavaScript `Map` objects (`peer.producers`, `peer.consumers`) are lists in
  insertion order; `undefined` optional fields are `Option.none`.
* Opaque engine payloads (RTP capabilities, RTP parameters) are `Nat` tokens;
  the router compatibility check `canConsume` is an abstract boolean function
  on them, passed as a parameter.
* Calls into the media engine that may reject are modelled by boolean failure
  oracles (`ppfail` for `producer.pause()/resume()`, `cfail` for
  `consumer.pause()/resume()` or `transport.consume()`), also passed as
  parameters; an oracle value `true` means the awaited call throws.
* Socket.io emits are modelled as values returned next to the new state; a
  broadcast to a room is the list of socket ids of the registered users of
  that room other than the sender.
* Fresh mediasoup-generated ids are produced by an abstract `freshId`
  function from the producer id.
-/

namespace CodeSync

/-- Media kind of a producer or consumer (`audio` / `video` in the source). -/
inductive MediaKind
  | audioKind
  | videoKind
deriving DecidableEq, Repr

/-- Boolean test used where the source writes `kind === 'video'`. -/
def MediaKind.isVideo : MediaKind → Bool
  | .videoKind => true
  | .audioKind => false

/-- `USER_CONNECTION_STATUS` of `types/user.ts`. -/
inductive ConnStatus
  | online
  | offline
deriving DecidableEq, Repr

/-- A mediasoup WebRTC transport, as visible to the coordinator. -/
structure Transport where
  id : String
  closed : Bool
deriving DecidableEq, Repr

/-- A mediasoup producer, as visible to the coordinator. -/
structure Producer where
  id : String
  kind : MediaKind
  rtpParameters : Nat
  paused : Bool
  closed : Bool
deriving DecidableEq, Repr

/-- A mediasoup consumer, as visible to the coordinator. -/
structure Consumer where
  id : String
  producerId : String
  kind : MediaKind
  rtpParameters : Nat
  paused : Bool
  closed : Bool
deriving DecidableEq, Repr

/-- The `User` record of `types/user.ts`: identity plus owned media
resources.  Optional TypeScript fields are `Option`s. -/
structure User where
  username : String
  roomId : String
  status : ConnStatus
  cursorPosition : Nat
  typing : Bool
  currentFile : Option String
  socketId : String
  rtpCapabilities : Option Nat
  producerTransport : Option Transport
  consumerTransport : Option Transport
  producers : Option (List Producer)
  consumers : Option (List Consumer)
  hasVideo : Option Bool
  hasAudio : Option Bool
deriving DecidableEq, Repr

/-- A freshly registered user as built by the `JOIN_REQUEST` handler
(`server.ts:388`): media fields are still `undefined`. -/
def baseUser (sid username roomId : String) : User :=
  { username := username, roomId := roomId, status := .online,
    cursorPosition := 0, typing := false, currentFile := none,
    socketId := sid, rtpCapabilities := none,
    producerTransport := none, consumerTransport := none,
    producers := none, consumers := none,
    hasVideo := none, hasAudio := none }

/-- `getUserBySocketId` (`server.ts:314`): first user with the socket id. -/
def getUserBySocketId : List User → String → Option User
  | [], _ => none
  | u :: rest, sid => if u.socketId = sid then some u else getUserBySocketId rest sid

/-- In-place mutation of the user found by `getUserBySocketId`: the first
user with the socket id is replaced by `f` of it. -/
def updateUser : List User → String → (User → User) → List User
  | [], _, _ => []
  | u :: rest, sid, f =>
    if u.socketId = sid then f u :: rest else u :: updateUser rest sid f

/-- The duplicate-username lookup of the `JOIN_REQUEST` handler
(`server.ts:377`): first user already in `roomId` with `username`. -/
def findRoomUsername : List User → String → String → Option User
  | [], _, _ => none
  | u :: rest, roomId, username =>
    if u.roomId = roomId ∧ u.username = username then some u
    else findRoomUsername rest roomId username

/-- Outcome of the `JOIN_REQUEST` handler: either the `USERNAME_EXISTS`
emit, or `JOIN_ACCEPTED` with the new user and the other room members. -/
inductive JoinOutput
  | usernameExists
  | accepted (newUser : User) (others : List User)
deriving DecidableEq, Repr

/-- The `JOIN_REQUEST` handler (`server.ts:373`): reject on duplicate
username in the room, otherwise register the user and report the other
members of the room. -/
def joinRequestHandler (s : List User) (sid username roomId : String) :
    List User × JoinOutput :=
  match findRoomUsername s roomId username with
  | some _ => (s, .usernameExists)
  | none =>
    let newUser := baseUser sid username roomId
    let s2 := s ++ [newUser]
    let others :=
      (s2.filter (fun u => u.roomId == roomId)).filter
        (fun u => u.socketId != sid)
    (s2, .accepted newUser others)

/-- Response of the `JOIN_ROUTER` handler: an error, or
`{success:true}` with its `alreadyJoined` flag. -/
inductive RouterResp
  | error (msg : String)
  | success (alreadyJoined : Bool)
deriving DecidableEq, Repr

/-- The `JOIN_ROUTER` handler (`server.ts:698`): store the peer's RTP
capabilities on the first request; acknowledge later requests with
`alreadyJoined` without touching the stored capabilities. -/
def joinRouterHandler (s : List User) (sid : String) (caps : Nat) :
    List User × RouterResp :=
  match getUserBySocketId s sid with
  | none => (s, .error "Peer not found")
  | some peer =>
    match peer.rtpCapabilities with
    | some _ => (s, .success true)
    | none =>
      (updateUser s sid (fun u => { u with rtpCapabilities := some caps }),
       .success false)

/-- Response of the transport-creation handlers: an error, or the
connection parameters of the transport handed to the client. -/
inductive TransportResp
  | error (msg : String)
  | params (t : Transport)
deriving DecidableEq, Repr

/-- The `CREATE_PRODUCER_TRANSPORT` handler (`server.ts:724`).  `newT` is
the transport the engine would hand back; `none` models an engine failure
inside `createWebRtcTransport`. -/
def createProducerTransportHandler (newT : Option Transport)
    (s : List User) (sid : String) : List User × TransportResp :=
  match getUserBySocketId s sid with
  | none => (s, .error "Peer not found")
  | some peer =>
    match peer.producerTransport with
    | some _ => (s, .error "Producer transport already exists")
    | none =>
      match newT with
      | none => (s, .error "Failed to create producer transport")
      | some t =>
        (updateUser s sid (fun u => { u with producerTransport := some t }),
         .params t)

/-- The `CREATE_CONSUMER_TRANSPORT` handler (`server.ts:842`), symmetric
to the producer side. -/
def createConsumerTransportHandler (newT : Option Transport)
    (s : List User) (sid : String) : List User × TransportResp :=
  match getUserBySocketId s sid with
  | none => (s, .error "Peer not found")
  | some peer =>
    match peer.consumerTransport with
    | some _ => (s, .error "Consumer transport already exists")
    | none =>
      match newT with
      | none => (s, .error "Failed to create consumer transport")
      | some t =>
        (updateUser s sid (fun u => { u with consumerTransport := some t }),
         .params t)

/-- Descriptor returned to the subscriber for one created consumer
(`server.ts:273`; the opaque extra fields are elided). -/
structure ConsumerDescriptor where
  producerId : String
  id : String
  kind : MediaKind
  rtpParameters : Nat
  paused : Bool
deriving DecidableEq, Repr

/-- The consumer object built by `consumerTransport.consume`
(`server.ts:221`): video consumers start paused, audio consumers start
active. -/
def newConsumer (freshId : String → String) (p : Producer) : Consumer :=
  { id := freshId p.id, producerId := p.id, kind := p.kind,
    rtpParameters := p.rtpParameters, paused := p.kind.isVideo,
    closed := false }

/-- The descriptor for the consumer `newConsumer freshId p`. -/
def descOf (freshId : String → String) (p : Producer) : ConsumerDescriptor :=
  { producerId := p.id, id := freshId p.id, kind := p.kind,
    rtpParameters := p.rtpParameters, paused := p.kind.isVideo }

/-- `createConsumer` (`server.ts:195`): fail without a consumer transport;
fail when capabilities are missing or incompatible; otherwise ask the
engine for a consumer (`cfail` models an engine rejection), store it in
the peer's consumer map and return its descriptor. -/
def createConsumer (canCons : Nat → String → Bool) (cfail : String → Bool)
    (freshId : String → String) (peer : User) (p : Producer) :
    Except String (User × ConsumerDescriptor) :=
  match peer.consumerTransport with
  | none => .error "consumerTransport not found"
  | some _ =>
    match peer.rtpCapabilities with
    | none => .error "cannot consume - incompatible RTP capabilities"
    | some caps =>
      if canCons caps p.id then
        if cfail p.id then .error "consume error"
        else
          let c := newConsumer freshId p
          .ok ({ peer with consumers := some (peer.consumers.getD [] ++ [c]) },
               descOf freshId p)
      else .error "cannot consume - incompatible RTP capabilities"

/-- Success condition of `createConsumer`, read off its guards: a consumer
transport exists, negotiated capabilities exist and are compatible, and
the engine call does not fail. -/
def consumerCheck (canCons : Nat → String → Bool) (cfail : String → Bool)
    (peer : User) (p : Producer) : Bool :=
  peer.consumerTransport.isSome &&
    (match peer.rtpCapabilities with
     | none => false
     | some caps => canCons caps p.id) &&
    !(cfail p.id)

/-- Boolean success test for `Except`. -/
def exceptOk {α : Type} : Except String α → Bool
  | .ok _ => true
  | .error _ => false

/-- Response of the `CONSUME` handler. -/
inductive ConsumeResp
  | error (msg : String)
  | ok (descriptors : List ConsumerDescriptor)
deriving DecidableEq, Repr

/-- The per-producer loop of the `CONSUME` handler (`server.ts:900`): each
producer is tried with its own `try/catch`; a failed `createConsumer` is
logged and skipped, a successful one contributes its descriptor. -/
def consumeLoop (canCons : Nat → String → Bool) (cfail : String → Bool)
    (freshId : String → String) (peer : User) :
    List Producer → User × List ConsumerDescriptor
  | [] => (peer, [])
  | p :: rest =>
    match createConsumer canCons cfail freshId peer p with
    | .error _ => consumeLoop canCons cfail freshId peer rest
    | .ok (peer2, d) =>
      let r := consumeLoop canCons cfail freshId peer2 rest
      (r.1, d :: r.2)

/-- The `CONSUME` handler (`server.ts:881`): look up the subscriber and
the source peer, then build one consumer per producer of the source peer,
skipping per-producer failures, and answer with the descriptor list. -/
def consumeHandler (canCons : Nat → String → Bool) (cfail : String → Bool)
    (freshId : String → String) (s : List User) (sid peerId : String) :
    List User × ConsumeResp :=
  match getUserBySocketId s sid with
  | none => (s, .error "Peer not found")
  | some peer =>
    match getUserBySocketId s peerId with
    | none => (s, .error "Source peer not found")
    | some otherPeer =>
      match otherPeer.producers with
      | none => (s, .ok [])
      | some ps =>
        let r := consumeLoop canCons cfail freshId peer ps
        (updateUser s sid (fun _ => r.1), .ok r.2)

/-- The `producer.pause()` / `producer.resume()` state change: the flag of
the producer with this id is set wherever it is stored. -/
def setProducerPaused (pid : String) (b : Bool) (s : List User) : List User :=
  s.map (fun u =>
    { u with producers :=
        u.producers.map (fun ps =>
          ps.map (fun p => if p.id = pid then { p with paused := b } else p)) })

/-- One user's slice of the pause/resume cascade loop
(`server.ts:334`/`server.ts:357`): consumers are visited in insertion
order; a matching consumer whose engine call fails (`cfail`) throws, so
the returned flag marks the abort and the remaining entries are left
untouched. -/
def cascadeConsumerList (b : Bool) (cfail : String → Bool) (pid : String) :
    List Consumer → List Consumer × Bool
  | [] => ([], false)
  | c :: rest =>
    if c.producerId = pid then
      if cfail c.id then (c :: rest, true)
      else
        let r := cascadeConsumerList b cfail pid rest
        ({ c with paused := b } :: r.1, r.2)
    else
      let r := cascadeConsumerList b cfail pid rest
      (c :: r.1, r.2)

/-- The outer loop of the cascade over `userSocketMap`
(`server.ts:332`/`server.ts:355`): users without a consumer map are
skipped; a throw inside one user's slice aborts the remaining users. -/
def cascadeUsers (b : Bool) (cfail : String → Bool) (pid : String) :
    List User → List User × Bool
  | [] => ([], false)
  | u :: rest =>
    match u.consumers with
    | none =>
      let r := cascadeUsers b cfail pid rest
      (u :: r.1, r.2)
    | some cs =>
      let rc := cascadeConsumerList b cfail pid cs
      let u2 := { u with consumers := some rc.1 }
      if rc.2 then (u2 :: rest, true)
      else
        let r := cascadeUsers b cfail pid rest
        (u2 :: r.1, r.2)

/-- `pauseProducer` (`server.ts:326`): pause the producer, then pause
every consumer of every registered user whose `producerId` matches; the
single `try/catch` around both phases swallows any throw.  `ppfail` set
means `producer.pause()` itself throws, so nothing at all happens. -/
def pauseProducer (ppfail : Bool) (cfail : String → Bool) (pid : String)
    (s : List User) : List User :=
  if ppfail then s
  else (cascadeUsers true cfail pid (setProducerPaused pid true s)).1

/-- `resumeProducer` (`server.ts:349`), the mirror image of
`pauseProducer`. -/
def resumeProducer (ppfail : Bool) (cfail : String → Bool) (pid : String)
    (s : List User) : List User :=
  if ppfail then s
  else (cascadeUsers false cfail pid (setProducerPaused pid false s)).1

/-- All consumers of all registered users, in the iteration order of the
cascade loops. -/
def flatConsumers : List User → List Consumer
  | [] => []
  | u :: rest => u.consumers.getD [] ++ flatConsumers rest

/-- The sub-operation applied by a cascade with target flag `b` to one
consumer when no failure occurs. -/
def markPaused (pid : String) (b : Bool) (c : Consumer) : Consumer :=
  if c.producerId = pid then { c with paused := b } else c

/-- Every consumer sourced from `pid` in state `s` has paused flag `b`. -/
def allMatching (pid : String) (b : Bool) (s : List User) : Prop :=
  ∀ c ∈ flatConsumers s, c.producerId = pid → c.paused = b

/-- The `disconnecting` handler (`server.ts:499`): broadcast
`USER_DISCONNECTED` to the other registered members of the user's room,
then drop the user from `userSocketMap`.  The second component is the
list of socket ids the broadcast is delivered to. -/
def disconnecting (s : List User) (sid : String) : List User × List String :=
  match getUserBySocketId s sid with
  | none => (s, [])
  | some user =>
    (s.filter (fun u => u.socketId != sid),
     ((s.filter (fun u => u.roomId == user.roomId)).filter
        (fun u => u.socketId != sid)).map (fun u => u.socketId))

/-- Acknowledgment sent by the toggle handlers. -/
inductive ToggleResp
  | error (msg : String)
  | success
deriving DecidableEq, Repr

/-- A `VIDEO_STATE_CHANGED` / `AUDIO_STATE_CHANGED` room broadcast. -/
structure StateChangedEvent where
  event : String
  roomId : String
  socketId : String
  enabled : Bool
deriving DecidableEq, Repr

/-- Event name broadcast by the toggle handler for each kind. -/
def stateEventName : MediaKind → String
  | .videoKind => "video-state-changed"
  | .audioKind => "audio-state-changed"

/-- The `hasVideo` / `hasAudio` update performed by the toggle handler. -/
def setToggleFlag (kind : MediaKind) (enabled : Bool) (u : User) : User :=
  match kind with
  | .videoKind => { u with hasVideo := some enabled }
  | .audioKind => { u with hasAudio := some enabled }

/-- Result of the synchronous part of a toggle handler: the state as
mutated before the handler returns, the broadcasts and the acknowledgment
it emits, and the producer ids whose pause/resume cascades were invoked
without being awaited and are still pending. -/
structure ToggleResult where
  state : List User
  broadcasts : List StateChangedEvent
  ack : ToggleResp
  pendingCascades : List String
deriving DecidableEq, Repr

/-- The synchronous body of the `TOGGLE_VIDEO` / `TOGGLE_AUDIO` handlers
(`server.ts:943` and `server.ts:1000`, which differ only in the kind):
collect the user's producers of that kind, invoke `pauseProducer` /
`resumeProducer` on each without `await` (so their state effects are only
pending when the handler returns), set the user's flag, broadcast the
state change (skipped when `roomId` is falsy, i.e. empty), and
acknowledge success. -/
def toggleHandler (kind : MediaKind) (s : List User) (sid : String)
    (enabled : Bool) : ToggleResult :=
  match getUserBySocketId s sid with
  | none => { state := s, broadcasts := [], ack := .error "User not found",
              pendingCascades := [] }
  | some user =>
    match user.producers with
    | none => { state := s, broadcasts := [], ack := .error "User not found",
                pendingCascades := [] }
    | some ps =>
      let matching := ps.filter (fun p => decide (p.kind = kind))
      let pending := matching.map (fun p => p.id)
      let s2 := updateUser s sid (setToggleFlag kind enabled)
      let events :=
        if user.roomId = "" then []
        else [{ event := stateEventName kind, roomId := user.roomId,
                socketId := sid, enabled := enabled }]
      { state := s2, broadcasts := events, ack := .success,
        pendingCascades := pending }

/-- Running the cascades a toggle handler left pending, in invocation
order, under the given failure oracles. -/
def runPendingCascades (enabled : Bool) (ppfail : Bool)
    (cfail : String → Bool) (pending : List String) (s : List User) :
    List User :=
  pending.foldl
    (fun st pid =>
      if enabled then resumeProducer ppfail cfail pid st
      else pauseProducer ppfail cfail pid st) s

/-- A toggle followed by the completion of its pending cascades: the
broadcasts and the acknowledgment are exactly those already emitted by
the synchronous part, whatever the cascades then do. -/
def toggleThenCascades (kind : MediaKind) (ppfail : Bool)
    (cfail : String → Bool) (s : List User) (sid : String)
    (enabled : Bool) : ToggleResult :=
  let r := toggleHandler kind s sid enabled
  { r with
      state := runPendingCascades enabled ppfail cfail r.pendingCascades r.state }

/-! Concrete fixtures used to evaluate the embedded handlers. -/

/-- A video producer owned by `alice`. -/
def sampleProducerVideo : Producer :=
  { id := "p1", kind := .videoKind, rtpParameters := 7, paused := false,
    closed := false }

/-- An audio producer owned by `alice`. -/
def sampleProducerAudio : Producer :=
  { id := "p2", kind := .audioKind, rtpParameters := 8, paused := false,
    closed := false }

/-- First consumer of `bob`, sourced from producer `p1`. -/
def consOne : Consumer :=
  { id := "c1", producerId := "p1", kind := .videoKind, rtpParameters := 7,
    paused := false, closed := false }

/-- Second consumer of `bob`, also sourced from producer `p1`. -/
def consTwo : Consumer :=
  { id := "c2", producerId := "p1", kind := .videoKind, rtpParameters := 7,
    paused := false, closed := false }

/-- A publishing user in room `r1` with one video and one audio producer. -/
def alice : User :=
  { baseUser "A" "alice" "r1" with
      producerTransport := some { id := "tA", closed := false },
      producers := some [sampleProducerVideo, sampleProducerAudio] }

/-- A subscribing user in room `r1` holding two consumers of `p1`. -/
def bob : User :=
  { baseUser "B" "bob" "r1" with
      rtpCapabilities := some 5,
      consumerTransport := some { id := "tB", closed := false },
      consumers := some [consOne, consTwo] }

/-- A user owning a transport in each direction and nothing else. -/
def carol : User :=
  { baseUser "C" "carol" "r1" with
      producerTransport := some { id := "tCp", closed := false },
      consumerTransport := some { id := "tCc", closed := false } }

/-- The registry with `alice` publishing and `bob` subscribed to her. -/
def sampleState : List User := [alice, bob]

/-- Capability check that accepts everything. -/
def wCanCons : Nat → String → Bool := fun _ _ => true

/-- Capability check that rejects producer `p1` and accepts the rest. -/
def wCanConsSkip : Nat → String → Bool := fun _ p => p != "p1"

/-- Engine failure oracle that never fails. -/
def wCFail : String → Bool := fun _ => false

/-- Deterministic fresh consumer ids for the fixtures. -/
def wFresh : String → String := fun i => "c-" ++ i

/-- `bob` after consuming `alice`'s video producer. -/
def bobAfterVideo : User :=
  { bob with
      consumers := some (bob.consumers.getD [] ++ [newConsumer wFresh sampleProducerVideo]) }

/-- `bob` after consuming `alice`'s audio producer. -/
def bobAfterAudio : User :=
  { bob with
      consumers := some (bob.consumers.getD [] ++ [newConsumer wFresh sampleProducerAudio]) }

/-! Helper lemmas about the embedded operations. -/

/-- `updateUser` rewrites the first user carrying the socket id, exactly as
the in-place mutation after `getUserBySocketId` does. -/
theorem getUserBySocketId_updateUser (f : User → User)
    (hf : ∀ v : User, (f v).socketId = v.socketId) :
    ∀ (s : List User) (sid : String) (peer : User),
      getUserBySocketId s sid = some peer →
      getUserBySocketId (updateUser s sid f) sid = some (f peer) := by
  intro s
  induction s with
  | nil => intro sid peer h; simp [getUserBySocketId] at h
  | cons u rest ih =>
    intro sid peer h
    by_cases hu : u.socketId = sid
    · rw [getUserBySocketId, if_pos hu] at h
      cases h
      rw [updateUser, if_pos hu, getUserBySocketId, if_pos ((hf u).trans hu)]
    · rw [getUserBySocketId, if_neg hu] at h
      rw [updateUser, if_neg hu, getUserBySocketId, if_neg hu]
      exact ih sid peer h

/-- A user matching the duplicate-username predicate makes the lookup of
the `JOIN_REQUEST` handler succeed. -/
theorem findRoomUsername_isSome :
    ∀ (s : List User) (roomId username : String) (u : User),
      u ∈ s → u.roomId = roomId → u.username = username →
      (findRoomUsername s roomId username).isSome := by
  intro s
  induction s with
  | nil => intro roomId username u hu; cases hu
  | cons v rest ih =>
    intro roomId username u hu hr hn
    by_cases hv : v.roomId = roomId ∧ v.username = username
    · rw [findRoomUsername, if_pos hv]; rfl
    · rw [findRoomUsername, if_neg hv]
      rcases List.mem_cons.mp hu with rfl | hu2
      · exact absurd ⟨hr, hn⟩ hv
      · exact ih roomId username u hu2 hr hn

/-- `createConsumer` succeeds exactly when `consumerCheck` holds, and then
returns the stored consumer and its descriptor. -/
theorem createConsumer_ok_iff (canCons : Nat → String → Bool)
    (cfail : String → Bool) (freshId : String → String) (peer q : User)
    (p : Producer) (d : ConsumerDescriptor) :
    createConsumer canCons cfail freshId peer p = .ok (q, d) ↔
      consumerCheck canCons cfail peer p = true ∧
      q = { peer with
              consumers := some (peer.consumers.getD [] ++ [newConsumer freshId p]) } ∧
      d = descOf freshId p := by
  unfold createConsumer consumerCheck
  rcases hct : peer.consumerTransport with _ | t <;>
    rcases hcap : peer.rtpCapabilities with _ | caps <;>
      simp [hct, hcap] <;>
        by_cases hcc : canCons caps p.id <;>
          by_cases hcf : cfail p.id <;>
            simp [hcc, hcf, and_comm, eq_comm]

/-- Success of `createConsumer` is decided by `consumerCheck`. -/
theorem exceptOk_createConsumer (canCons : Nat → String → Bool)
    (cfail : String → Bool) (freshId : String → String) (peer : User)
    (p : Producer) :
    exceptOk (createConsumer canCons cfail freshId peer p) =
      consumerCheck canCons cfail peer p := by
  unfold createConsumer consumerCheck exceptOk
  rcases hct : peer.consumerTransport with _ | t <;>
    rcases hcap : peer.rtpCapabilities with _ | caps <;>
      simp [hct, hcap] <;>
        by_cases hcc : canCons caps p.id <;>
          by_cases hcf : cfail p.id <;>
            simp [hcc, hcf]

/-- The per-producer loop of the `CONSUME` handler returns exactly the
descriptors of the producers passing `consumerCheck`, in order. -/
theorem consumeLoop_snd (canCons : Nat → String → Bool)
    (cfail : String → Bool) (freshId : String → String) :
    ∀ (ps : List Producer) (peer : User),
      (consumeLoop canCons cfail freshId peer ps).2 =
        (ps.filter (fun p => consumerCheck canCons cfail peer p)).map
          (descOf freshId) := by
  intro ps
  induction ps with
  | nil => intro peer; rfl
  | cons p rest ih =>
    intro peer
    rcases hcc : createConsumer canCons cfail freshId peer p with m | ⟨q, d⟩
    · have hc : consumerCheck canCons cfail peer p = false := by
        rw [← exceptOk_createConsumer canCons cfail freshId peer p, hcc]
        rfl
      simp only [consumeLoop, hcc]
      rw [List.filter_cons, if_neg (by simp [hc])]
      exact ih peer
    · obtain ⟨hc, hq, hd⟩ :=
        (createConsumer_ok_iff canCons cfail freshId peer q p d).mp hcc
      simp only [consumeLoop, hcc]
      rw [List.filter_cons, if_pos (by simp [hc]), List.map_cons, ← hd]
      refine congrArg (d :: ·) ?_
      rw [ih q]
      subst hq
      rfl

/-- When the subscriber lacks either resource, `consumerCheck` fails. -/
theorem consumerCheck_false_of_missing (canCons : Nat → String → Bool)
    (cfail : String → Bool) (peer : User) (p : Producer)
    (h : peer.consumerTransport = none ∨ peer.rtpCapabilities = none) :
    consumerCheck canCons cfail peer p = false := by
  unfold consumerCheck
  rcases h with h | h <;> rw [h] <;> simp

/-- Pausing or resuming a producer object leaves every consumer list
untouched. -/
theorem flatConsumers_setProducerPaused (pid : String) (b : Bool) :
    ∀ s : List User, flatConsumers (setProducerPaused pid b s) = flatConsumers s := by
  intro s
  induction s with
  | nil => rfl
  | cons u rest ih =>
    simp only [setProducerPaused, List.map_cons, flatConsumers] at *
    rw [ih]

/-- Splitting the consumer slice processed by one cascade step. -/
theorem cascadeConsumerList_append (b : Bool) (cfail : String → Bool)
    (pid : String) :
    ∀ xs ys : List Consumer,
      cascadeConsumerList b cfail pid (xs ++ ys) =
        if (cascadeConsumerList b cfail pid xs).2
        then ((cascadeConsumerList b cfail pid xs).1 ++ ys, true)
        else ((cascadeConsumerList b cfail pid xs).1 ++
                (cascadeConsumerList b cfail pid ys).1,
              (cascadeConsumerList b cfail pid ys).2) := by
  intro xs
  induction xs with
  | nil => intro ys; simp [cascadeConsumerList]
  | cons c rest ih =>
    intro ys
    by_cases hm : c.producerId = pid
    · by_cases hf : cfail c.id
      · simp [cascadeConsumerList, hm, hf]
      · by_cases hab : (cascadeConsumerList b cfail pid rest).2
        · simp [cascadeConsumerList, hm, hf, hab, ih ys]
        · simp [cascadeConsumerList, hm, hf, hab, ih ys]
    · by_cases hab : (cascadeConsumerList b cfail pid rest).2
      · simp [cascadeConsumerList, hm, hab, ih ys]
      · simp [cascadeConsumerList, hm, hab, ih ys]

/-- The state produced by the cascade loop over all users is the one-list
cascade over all consumers in iteration order. -/
theorem flatConsumers_cascadeUsers (b : Bool) (cfail : String → Bool)
    (pid : String) :
    ∀ s : List User,
      flatConsumers ((cascadeUsers b cfail pid s).1) =
        (cascadeConsumerList b cfail pid (flatConsumers s)).1 := by
  intro s
  induction s with
  | nil => rfl
  | cons u rest ih =>
    rcases hcs : u.consumers with _ | cs
    · simp only [cascadeUsers, hcs, flatConsumers, Option.getD_none,
        List.nil_append]
      exact ih
    · simp only [cascadeUsers, hcs, flatConsumers, Option.getD_some,
        cascadeConsumerList_append]
      by_cases hab : (cascadeConsumerList b cfail pid cs).2
      · simp [hab, flatConsumers]
      · simp [hab, flatConsumers, ih]

/-- Without failures, one cascade slice pauses or resumes exactly the
matching consumers and does not abort. -/
theorem cascadeConsumerList_noFail (b : Bool) (pid : String) :
    ∀ cs : List Consumer,
      cascadeConsumerList b (fun _ => false) pid cs =
        (cs.map (markPaused pid b), false) := by
  intro cs
  induction cs with
  | nil => rfl
  | cons c rest ih =>
    by_cases hm : c.producerId = pid <;>
      simp [cascadeConsumerList, markPaused, hm, ih]

/-- A failing matching consumer stops the cascade slice: entries before it
are updated, it and everything after it are returned unchanged. -/
theorem cascadeConsumerList_firstFail (b : Bool) (cfail : String → Bool)
    (pid : String) (c : Consumer) (l2 : List Consumer)
    (hm : c.producerId = pid) (hf : cfail c.id = true) :
    ∀ l1 : List Consumer,
      (∀ x ∈ l1, x.producerId = pid → cfail x.id = false) →
      cascadeConsumerList b cfail pid (l1 ++ c :: l2) =
        (l1.map (markPaused pid b) ++ c :: l2, true) := by
  intro l1
  induction l1 with
  | nil =>
    intro _
    simp [cascadeConsumerList, hm, hf]
  | cons x rest ih =>
    intro hbefore
    have hrest : ∀ y ∈ rest, y.producerId = pid → cfail y.id = false := by
      intro y hy; exact hbefore y (List.mem_cons_of_mem x hy)
    by_cases hx : x.producerId = pid
    · have hxf : cfail x.id = false := hbefore x (List.mem_cons_self x rest) hx
      simp [cascadeConsumerList, hx, hxf, ih hrest, markPaused]
    · simp [cascadeConsumerList, hx, ih hrest, markPaused]

/-- Without failures, after a full cascade every matching consumer carries
the target flag. -/
theorem allMatching_cascadeNoFail (b : Bool) (pid : String) (s : List User) :
    allMatching pid b ((cascadeUsers b (fun _ => false) pid s).1) := by
  intro c hc hcp
  rw [flatConsumers_cascadeUsers, cascadeConsumerList_noFail] at hc
  rcases List.mem_map.mp hc with ⟨c0, _, rfl⟩
  unfold markPaused at hcp ⊢
  by_cases h : c0.producerId = pid
  · simp [h]
  · simp only [if_neg h] at hcp
    exact absurd hcp h

/-- `updateUser` with a media-preserving update changes no producer or
consumer collection. -/
theorem updateUser_map_media (f : User → User)
    (hf : ∀ v : User, (f v).producers = v.producers ∧ (f v).consumers = v.consumers) :
    ∀ (s : List User) (sid : String),
      (updateUser s sid f).map (fun u => (u.producers, u.consumers)) =
        s.map (fun u => (u.producers, u.consumers)) := by
  intro s
  induction s with
  | nil => intro sid; rfl
  | cons u rest ih =>
    intro sid
    by_cases hu : u.socketId = sid
    · simp [updateUser, hu, (hf u).1, (hf u).2]
    · simp [updateUser, hu, ih sid]

/-- The toggle flag update touches neither media maps nor the socket id. -/
theorem setToggleFlag_preserves (kind : MediaKind) (enabled : Bool)
    (v : User) :
    (setToggleFlag kind enabled v).socketId = v.socketId ∧
    (setToggleFlag kind enabled v).producers = v.producers ∧
    (setToggleFlag kind enabled v).consumers = v.consumers := by
  cases kind <;> exact ⟨rfl, rfl, rfl⟩

/-! Claim theorems. -/

/-- C1: for every producer `P` and every consumer whose source producer id
equals `P.id`, after `pauseProducer(P)` completes the consumer is paused,
and after `resumeProducer(P)` completes it is not paused (in particular
every consumer not independently paused by its own subscriber), the
cascade visiting every consumer of every registered peer; stated with the
engine pause/resume calls succeeding. -/
theorem pause_resume_cascade_reaches_all_consumers (s : List User)
    (pid : String) :
    allMatching pid true (pauseProducer false (fun _ => false) pid s) ∧
    allMatching pid false (resumeProducer false (fun _ => false) pid s) :=
  ⟨allMatching_cascadeNoFail true pid (setProducerPaused pid true s),
   allMatching_cascadeNoFail false pid (setProducerPaused pid false s)⟩

/-- C1 witness: the cascade property evaluated on the concrete registry
`sampleState` and producer `p1`. -/
theorem pause_resume_cascade_witness :
    allMatching "p1" true (pauseProducer false (fun _ => false) "p1" sampleState) ∧
    allMatching "p1" false (resumeProducer false (fun _ => false) "p1" sampleState) :=
  pause_resume_cascade_reaches_all_consumers sampleState "p1"

/-- C2: evaluation of the `disconnecting` handler at a state where `alice`
owns producer `p1` and `bob` (same room) owns the dependent consumer `c1`.
The `user-disconnected` broadcast is delivered to the one remaining member
exactly once, but no owned resource is closed: `alice` is merely dropped
from the registry and `bob`'s consumer sourced from `p1` stays open in
`bob`'s consumer set, contradicting the claimed closure cascade. -/
theorem disconnect_leaves_dependent_consumer_open :
    (disconnecting sampleState "A").2 = ["B"] ∧
    (disconnecting sampleState "A").1 = [bob] ∧
    consOne ∈ bob.consumers.getD [] ∧
    consOne.producerId = sampleProducerVideo.id ∧
    consOne.closed = false ∧
    sampleProducerVideo ∈ alice.producers.getD [] ∧
    alice.roomId = bob.roomId := by decide

/-- C3: a create-producer-transport or create-consumer-transport request
made while the peer already owns a transport of that direction is rejected
with an already-exists error and the registry (hence the existing
transport) is left unchanged. -/
theorem transport_create_rejected_when_exists (newT : Option Transport)
    (s : List User) (sid : String) (peer : User)
    (h : getUserBySocketId s sid = some peer) :
    (∀ t, peer.producerTransport = some t →
      createProducerTransportHandler newT s sid =
        (s, .error "Producer transport already exists")) ∧
    (∀ t, peer.consumerTransport = some t →
      createConsumerTransportHandler newT s sid =
        (s, .error "Consumer transport already exists")) := by
  constructor
  · intro t ht
    simp [createProducerTransportHandler, h, ht]
  · intro t ht
    simp [createConsumerTransportHandler, h, ht]

/-- C3 witness: both rejections evaluated on `carol`, who owns a transport
in each direction. -/
theorem transport_create_rejected_witness :
    getUserBySocketId [carol] "C" = some carol ∧
    createProducerTransportHandler (some { id := "tNew", closed := false })
        [carol] "C" = ([carol], .error "Producer transport already exists") ∧
    createConsumerTransportHandler (some { id := "tNew", closed := false })
        [carol] "C" = ([carol], .error "Consumer transport already exists") :=
  ⟨rfl,
   (transport_create_rejected_when_exists
      (some { id := "tNew", closed := false }) [carol] "C" carol rfl).1
     { id := "tCp", closed := false } rfl,
   (transport_create_rejected_when_exists
      (some { id := "tNew", closed := false }) [carol] "C" carol rfl).2
     { id := "tCc", closed := false } rfl⟩

/-- C4: every consumer created by `createConsumer` starts with a paused
flag determined solely by the producer's media kind: paused for video,
active for audio; both the stored consumer and the returned descriptor
carry that flag. -/
theorem consumer_created_paused_iff_video (canCons : Nat → String → Bool)
    (cfail : String → Bool) (freshId : String → String) (peer q : User)
    (p : Producer) (d : ConsumerDescriptor)
    (h : createConsumer canCons cfail freshId peer p = .ok (q, d)) :
    d.paused = p.kind.isVideo ∧
    q.consumers = some (peer.consumers.getD [] ++ [newConsumer freshId p]) ∧
    (newConsumer freshId p).paused = p.kind.isVideo ∧
    (p.kind = .videoKind → d.paused = true) ∧
    (p.kind = .audioKind → d.paused = false) := by
  obtain ⟨hc, hq, hd⟩ :=
    (createConsumer_ok_iff canCons cfail freshId peer q p d).mp h
  subst hq
  subst hd
  refine ⟨rfl, rfl, rfl, ?_, ?_⟩
  · intro hk; simp [descOf, hk, MediaKind.isVideo]
  · intro hk; simp [descOf, hk, MediaKind.isVideo]

/-- C4 witness: `bob` consuming `alice`'s video producer yields a paused
consumer, consuming her audio producer yields an active one. -/
theorem consumer_created_paused_iff_video_witness :
    createConsumer wCanCons wCFail wFresh bob sampleProducerVideo =
      .ok (bobAfterVideo, descOf wFresh sampleProducerVideo) ∧
    (descOf wFresh sampleProducerVideo).paused = true ∧
    createConsumer wCanCons wCFail wFresh bob sampleProducerAudio =
      .ok (bobAfterAudio, descOf wFresh sampleProducerAudio) ∧
    (descOf wFresh sampleProducerAudio).paused = false :=
  ⟨rfl,
   (consumer_created_paused_iff_video wCanCons wCFail wFresh bob bobAfterVideo
      sampleProducerVideo (descOf wFresh sampleProducerVideo) rfl).2.2.2.1 rfl,
   rfl,
   (consumer_created_paused_iff_video wCanCons wCFail wFresh bob bobAfterAudio
      sampleProducerAudio (descOf wFresh sampleProducerAudio) rfl).2.2.2.2 rfl⟩

/-- C5: `consume` iterates over the snapshot of the source peer's producer
list taken at call time and answers success with exactly one descriptor
per producer whose consumer creation succeeds (`consumerCheck`, proved
equivalent to `createConsumer` succeeding); a failing producer is skipped
with the iteration continuing, so the list may be shorter than the
producer count and partial success is not an overall failure. -/
theorem consume_returns_descriptor_per_successful_producer
    (canCons : Nat → String → Bool) (cfail : String → Bool)
    (freshId : String → String) (s : List User) (sid peerId : String)
    (peer otherPeer : User) (ps : List Producer)
    (h1 : getUserBySocketId s sid = some peer)
    (h2 : getUserBySocketId s peerId = some otherPeer)
    (h3 : otherPeer.producers = some ps) :
    (consumeHandler canCons cfail freshId s sid peerId).2 =
      .ok ((ps.filter (fun p => consumerCheck canCons cfail peer p)).map
            (descOf freshId)) ∧
    (∀ p ∈ ps, exceptOk (createConsumer canCons cfail freshId peer p) =
      consumerCheck canCons cfail peer p) ∧
    ((ps.filter (fun p => consumerCheck canCons cfail peer p)).map
        (descOf freshId)).length ≤ ps.length := by
  refine ⟨?_, fun p _ => exceptOk_createConsumer canCons cfail freshId peer p, ?_⟩
  · simp only [consumeHandler, h1, h2, h3]
    rw [consumeLoop_snd]
  · rw [List.length_map]
    exact List.length_filter_le _ _

/-- C5 witness: consuming `alice` from `bob` under capabilities that
reject the video producer `p1` but accept the audio producer `p2` skips
`p1` and still succeeds with the one descriptor for `p2`. -/
theorem consume_returns_descriptor_witness :
    (consumeHandler wCanConsSkip wCFail wFresh sampleState "B" "A").2 =
      .ok [descOf wFresh sampleProducerAudio] := by
  have h := (consume_returns_descriptor_per_successful_producer wCanConsSkip
    wCFail wFresh sampleState "B" "A" bob alice
    [sampleProducerVideo, sampleProducerAudio] rfl rfl rfl).1
  exact h.trans (by rfl)

/-- C6 counterexample: with `bob` holding consumers `c1` and `c2` of
producer `p1` and the engine failing only on `c1`, `pauseProducer`
completes with the producer paused but `c2` — a consumer other than the
failing one — still unpaused: one consumer's failure does abort the
cascade, refuting the claimed partial-failure isolation. -/
theorem pause_cascade_isolation_counterexample :
    (∃ u ∈ pauseProducer false (fun i => i == "c1") "p1" sampleState,
       ∃ c ∈ u.consumers.getD [],
         c.id = "c2" ∧ c.producerId = "p1" ∧ c.paused = false) ∧
    (∃ u ∈ pauseProducer false (fun i => i == "c1") "p1" sampleState,
       ∃ p ∈ u.producers.getD [], p.id = "p1" ∧ p.paused = true) := by decide

/-- C6 amended: during the pause (resume) cascade, a failure to pause
(resume) one dependent consumer is caught and logged at the cascade level
and aborts the cascade: matching consumers visited before the failing one
are paused (resumed), while the failing consumer and every consumer after
it in iteration order are left unchanged; the error does not escape to
the caller. -/
theorem pause_cascade_aborts_after_first_failure (s : List User)
    (pid : String) (cfail : String → Bool) (l1 : List Consumer)
    (c : Consumer) (l2 : List Consumer)
    (hsplit : flatConsumers s = l1 ++ c :: l2)
    (hm : c.producerId = pid) (hf : cfail c.id = true)
    (hbefore : ∀ x ∈ l1, x.producerId = pid → cfail x.id = false) :
    flatConsumers (pauseProducer false cfail pid s) =
      l1.map (markPaused pid true) ++ c :: l2 ∧
    flatConsumers (resumeProducer false cfail pid s) =
      l1.map (markPaused pid false) ++ c :: l2 := by
  constructor
  · show flatConsumers
        ((cascadeUsers true cfail pid (setProducerPaused pid true s)).1) = _
    rw [flatConsumers_cascadeUsers, flatConsumers_setProducerPaused, hsplit,
      cascadeConsumerList_firstFail true cfail pid c l2 hm hf l1 hbefore]
  · show flatConsumers
        ((cascadeUsers false cfail pid (setProducerPaused pid false s)).1) = _
    rw [flatConsumers_cascadeUsers, flatConsumers_setProducerPaused, hsplit,
      cascadeConsumerList_firstFail false cfail pid c l2 hm hf l1 hbefore]

/-- C6 witness: the abort behaviour evaluated on `sampleState` with the
failing consumer `c1` first in iteration order: both consumers come out
unchanged. -/
theorem pause_cascade_aborts_witness :
    flatConsumers sampleState = [] ++ consOne :: [consTwo] ∧
    flatConsumers (pauseProducer false (fun i => i == "c1") "p1" sampleState) =
      List.map (markPaused "p1" true) [] ++ consOne :: [consTwo] :=
  ⟨by decide,
   (pause_cascade_aborts_after_first_failure sampleState "p1"
      (fun i => i == "c1") [] consOne [consTwo] (by decide) (by decide)
      (by decide) (by intro x hx; cases hx)).1⟩

/-- C7: a join request naming a username already present in the target
room is answered with the `username-exists` signal and the registry (and
therefore the derived room membership) is unchanged. -/
theorem duplicate_username_join_rejected (s : List User)
    (sid username roomId : String) (u : User)
    (hu : u ∈ s) (hr : u.roomId = roomId) (hn : u.username = username) :
    joinRequestHandler s sid username roomId = (s, .usernameExists) := by
  have hs := findRoomUsername_isSome s roomId username u hu hr hn
  rcases hfind : findRoomUsername s roomId username with _ | v
  · rw [hfind] at hs; simp at hs
  · simp [joinRequestHandler, hfind]

/-- C7 witness: a second peer joining room `r1` as `alice` is rejected and
the registry is returned unchanged. -/
theorem duplicate_username_join_witness :
    alice ∈ sampleState ∧
    joinRequestHandler sampleState "X" "alice" "r1" =
      (sampleState, .usernameExists) :=
  ⟨by decide,
   duplicate_username_join_rejected sampleState "X" "alice" "r1" alice
     (by decide) rfl rfl⟩

/-- C8: a peer's negotiated capabilities are set at most once — the first
`JOIN_ROUTER` request stores them, and any later request is acknowledged
as already joined without applying its payload, the registry and hence the
stored capabilities remaining unchanged. -/
theorem rtp_capabilities_set_at_most_once (s : List User) (sid : String)
    (caps0 newCaps : Nat) (peer : User)
    (h : getUserBySocketId s sid = some peer) :
    (peer.rtpCapabilities = none →
      joinRouterHandler s sid newCaps =
        (updateUser s sid (fun u => { u with rtpCapabilities := some newCaps }),
         .success false) ∧
      getUserBySocketId
          (updateUser s sid (fun u => { u with rtpCapabilities := some newCaps }))
          sid = some { peer with rtpCapabilities := some newCaps }) ∧
    (peer.rtpCapabilities = some caps0 →
      joinRouterHandler s sid newCaps = (s, .success true)) := by
  constructor
  · intro hc
    constructor
    · simp [joinRouterHandler, h, hc]
    · exact getUserBySocketId_updateUser
        (fun u => { u with rtpCapabilities := some newCaps }) (fun v => rfl)
        s sid peer h
  · intro hc
    simp [joinRouterHandler, h, hc]

/-- C8 witness: `bob` (capabilities already stored) is acknowledged as
already joined with the registry unchanged; `alice`'s first request stores
her capabilities. -/
theorem rtp_capabilities_witness :
    joinRouterHandler sampleState "B" 99 = (sampleState, .success true) ∧
    getUserBySocketId
        (updateUser sampleState "A"
          (fun u => { u with rtpCapabilities := some 42 })) "A" =
      some { alice with rtpCapabilities := some 42 } :=
  ⟨(rtp_capabilities_set_at_most_once sampleState "B" 5 99 bob rfl).2 rfl,
   ((rtp_capabilities_set_at_most_once sampleState "A" 0 42 alice rfl).1 rfl).2⟩

/-- C9: when the subscriber has no consumer transport or no negotiated
capabilities, `consume` against any source peer — also one that owns
producers — is not an error: every per-producer creation fails and is
swallowed, and the call reports success with an empty descriptor list. -/
theorem consume_degrades_to_empty_success (canCons : Nat → String → Bool)
    (cfail : String → Bool) (freshId : String → String) (s : List User)
    (sid peerId : String) (peer otherPeer : User)
    (h1 : getUserBySocketId s sid = some peer)
    (h2 : getUserBySocketId s peerId = some otherPeer)
    (hno : peer.consumerTransport = none ∨ peer.rtpCapabilities = none) :
    (consumeHandler canCons cfail freshId s sid peerId).2 = .ok [] := by
  rcases h3 : otherPeer.producers with _ | ps
  · simp [consumeHandler, h1, h2, h3]
  · simp only [consumeHandler, h1, h2, h3]
    rw [consumeLoop_snd]
    have hnil : ps.filter (fun p => consumerCheck canCons cfail peer p) = [] := by
      apply List.filter_eq_nil_iff.mpr
      intro p hp
      simp [consumerCheck_false_of_missing canCons cfail peer p hno]
    rw [hnil]
    rfl

/-- C9 witness: `carol` has a consumer transport but never negotiated
capabilities; consuming `alice`, who owns two producers, succeeds with an
empty list. -/
theorem consume_degrades_witness :
    alice.producers = some [sampleProducerVideo, sampleProducerAudio] ∧
    carol.rtpCapabilities = none ∧
    (consumeHandler wCanCons wCFail wFresh [alice, carol] "C" "A").2 = .ok [] :=
  ⟨rfl, rfl,
   consume_degrades_to_empty_success wCanCons wCFail wFresh [alice, carol]
     "C" "A" carol alice rfl rfl (Or.inr rfl)⟩

/-- C10: the toggle handlers schedule the pause/resume cascades without
awaiting them: when the handler returns, the success acknowledgment and
the state-changed broadcast are already emitted and the peer's flag is
updated, while every producer and consumer paused flag is still unchanged
(the cascades are merely pending); and since the synchronous part takes no
failure oracle, the same acknowledgment and broadcast stand even when
every pending cascade subsequently fails. -/
theorem toggle_acknowledges_before_cascade (kind : MediaKind)
    (s : List User) (sid : String) (enabled : Bool) (user : User)
    (ps : List Producer)
    (h1 : getUserBySocketId s sid = some user)
    (h2 : user.producers = some ps)
    (h3 : ¬ user.roomId = "") :
    (toggleHandler kind s sid enabled).ack = .success ∧
    (toggleHandler kind s sid enabled).broadcasts =
      [{ event := stateEventName kind, roomId := user.roomId,
         socketId := sid, enabled := enabled }] ∧
    (toggleHandler kind s sid enabled).pendingCascades =
      (ps.filter (fun p => decide (p.kind = kind))).map (fun p => p.id) ∧
    (toggleHandler kind s sid enabled).state.map
        (fun u => (u.producers, u.consumers)) =
      s.map (fun u => (u.producers, u.consumers)) ∧
    getUserBySocketId (toggleHandler kind s sid enabled).state sid =
      some (setToggleFlag kind enabled user) ∧
    (∀ (ppfail : Bool) (cfail : String → Bool),
      (toggleThenCascades kind ppfail cfail s sid enabled).ack = .success ∧
      (toggleThenCascades kind ppfail cfail s sid enabled).broadcasts =
        [{ event := stateEventName kind, roomId := user.roomId,
           socketId := sid, enabled := enabled }]) := by
  have hth : toggleHandler kind s sid enabled =
      { state := updateUser s sid (setToggleFlag kind enabled),
        broadcasts := [{ event := stateEventName kind, roomId := user.roomId,
                         socketId := sid, enabled := enabled }],
        ack := .success,
        pendingCascades :=
          (ps.filter (fun p => decide (p.kind = kind))).map (fun p => p.id) } := by
    simp [toggleHandler, h1, h2, h3]
  refine ⟨by rw [hth], by rw [hth], by rw [hth], ?_, ?_, ?_⟩
  · rw [hth]
    exact updateUser_map_media _
      (fun v => ⟨(setToggleFlag_preserves kind enabled v).2.1,
                 (setToggleFlag_preserves kind enabled v).2.2⟩) s sid
  · rw [hth]
    exact getUserBySocketId_updateUser _
      (fun v => (setToggleFlag_preserves kind enabled v).1) s sid user h1
  · intro ppfail cfail
    constructor
    · simp [toggleThenCascades, hth]
    · simp [toggleThenCascades, hth]

/-- C10 witness: toggling `alice`'s video off acknowledges success, leaves
the cascade for `p1` pending, and the acknowledgment stands even when
every cascade call then fails. -/
theorem toggle_acknowledges_witness :
    (toggleHandler .videoKind sampleState "A" false).ack = .success ∧
    (toggleHandler .videoKind sampleState "A" false).pendingCascades = ["p1"] ∧
    (toggleThenCascades .videoKind true (fun _ => true)
        sampleState "A" false).ack = .success := by
  have h := toggle_acknowledges_before_cascade .videoKind sampleState "A"
    false alice [sampleProducerVideo, sampleProducerAudio] rfl rfl (by decide)
  exact ⟨h.1, h.2.2.1.trans (by rfl), (h.2.2.2.2.2 true (fun _ => true)).1⟩

end CodeSync
